import Mathlib

/-!
# glretrace replay driver (`glretrace_main.cpp`)

A shallow embedding of the replay driver of `glretrace`: the option loop of
`main`, the replay loop `display`, the frame completion handler
`frame_complete`, the diagnostic `checkGlError`, and the string handling they
rely on (`snprintf` into a `PATH_MAX` buffer, `std::string::operator[]`).

Conventions of the embedding.

* C strings and `std::string` values are sequences of `char`, `Str`.
* `unsigned` values are natural numbers; an operation that can wrap is
  written with an explicit `% 2 ^ 32`.
* Everything the driver does to the outside world (the dispatcher, the GL
  context, the window system, the image codec, the standard streams) is
  recorded, in program order, in an event log carried by the state.  What the
  outside world answers is given by the record `Env`, each answer being a
  function of the log so far.
-/

namespace glretrace

/-- A C string or `std::string`: its sequence of characters, terminator excluded. -/
abbrev Str := List Char

/-! ## `std::string::operator[]` and the name test of `display` -/

/-- The terminator of a C string. -/
def NUL : Char := Char.ofNat 0

/-- The value of `name[i]` for a `const std::string`: the character at position
`i`, and the terminator at `i = name.size()`.  Positions past `size()` are
outside the contract of `operator[]`; `Probe.reads` keeps track of the
positions that are read so that this can be checked. -/
def charAt (name : Str) (i : Nat) : Char := name.getD i NUL

/-- The evaluation of a C++ condition over characters of a string: the
positions read, in evaluation order, and the truth value obtained. -/
structure Probe where
  reads : List Nat
  result : Bool
deriving DecidableEq, Repr

/-- The comparison `name[i] == ch`: reads position `i`. -/
def Probe.test (name : Str) (i : Nat) (ch : Char) : Probe :=
  { reads := [i], result := charAt name i == ch }

/-- The operator `&&`: the right operand is evaluated only when the left one is true. -/
def Probe.and (p q : Probe) : Probe :=
  if p.result then { reads := p.reads ++ q.reads, result := q.result } else p

/-- The operator `||`: the right operand is evaluated only when the left one is false. -/
def Probe.or (p q : Probe) : Probe :=
  if p.result then p else { reads := p.reads ++ q.reads, result := q.result }

/-- The condition of `display` (lines 166-167):
`(name[0] == 'w' && name[1] == 'g' && name[2] == 'l') ||
 (name[0] == 'g' && name[1] == 'l' && name[2] == 'X')`. -/
def osSpecificTest (name : Str) : Probe :=
  Probe.or
    (Probe.and (Probe.and (Probe.test name 0 'w') (Probe.test name 1 'g')) (Probe.test name 2 'l'))
    (Probe.and (Probe.and (Probe.test name 0 'g') (Probe.test name 1 'l')) (Probe.test name 2 'X'))

/-- Whether `display` takes a call of this name for an OS-specific one. -/
def isOsSpecific (name : Str) : Bool := (osSpecificTest name).result

/-! ## `snprintf(filename, sizeof filename, "%s%010u.png", ...)` -/

/-- The decimal digit `d` as a character. -/
def digit (d : Nat) : Char := Char.ofNat (48 + d)

/-- The conversion `%u`, with fuel: the decimal digits of `n`, most significant first. -/
def utoaFuel : Nat → Nat → Str
  | 0, _ => []
  | fuel + 1, n => if n < 10 then [digit n] else utoaFuel fuel (n / 10) ++ [digit (n % 10)]

/-- The conversion `%u`. -/
def utoa (n : Nat) : Str := utoaFuel (n + 1) n

/-- The conversion `%010u`: the digits of `%u`, left-padded with `'0'` to a
minimum width of 10 (a longer number is not cut). -/
def fmt_010u (n : Nat) : Str :=
  List.replicate (10 - (utoa n).length) '0' ++ utoa n

/-- The characters `snprintf(buf, size, "%s%010u.png", pfx, n)` leaves in `buf`
before the terminator: at most `size - 1` characters of the formatted text. -/
def snprintf_png (size : Nat) (pfx : Str) (n : Nat) : Str :=
  (pfx ++ fmt_010u n ++ ".png".toList).take (size - 1)

/-- The ten decimal digits of `n`, from the digit of `10 ^ 9` down to the
units: the sequence number "zero-padded to 10 digits" of the specification. -/
def tenDigits (n : Nat) : Str :=
  [digit (n / 1000000000 % 10), digit (n / 100000000 % 10), digit (n / 10000000 % 10),
   digit (n / 1000000 % 10), digit (n / 100000 % 10), digit (n / 10000 % 10),
   digit (n / 1000 % 10), digit (n / 100 % 10), digit (n / 10 % 10), digit (n % 10)]


/-! ## Data model -/

/-- A call record of the trace (`Trace::Call`): its sequence number `no` and
its `name`.  The arguments are opaque to the driver. -/
structure Call where
  no : Nat
  name : Str
deriving DecidableEq, Repr

/-- The settings `main` derives from the command line: the globals
`double_buffer`, `benchmark`, `wait`, `retrace::verbosity`, `compare_prefix`,
`snapshot_prefix` (`none` for `NULL`) and `dump_state`. -/
structure Config where
  double_buffer : Bool
  benchmark : Bool
  wait : Bool
  verbosity : Int
  compare_prefix : Option Str
  snapshot_prefix : Option Str
  dump_state : Nat
deriving DecidableEq, Repr

/-- Modelled from the spec: the start value of `retrace::verbosity`, a global
that is defined outside `glretrace_main.cpp`; the specification gives "a
common baseline of 0". -/
def verbosity_initial : Int := 0

/-- The values of the globals when `main` starts (lines 37-55); `dump_state`
starts as `~0`. -/
def Config.initial : Config :=
  { double_buffer := false, benchmark := false, wait := false, verbosity := verbosity_initial,
    compare_prefix := none, snapshot_prefix := none, dump_state := 2 ^ 32 - 1 }

/-- What the driver does to the outside world, one constructor per kind of
interaction. -/
inductive Event where
  /-- The call printed by `std::cout << *call`. -/
  | echo (call : Call)
  /-- The call handed to `retrace::retrace_call`. -/
  | retrace_call (call : Call)
  | swapBuffers
  | glFlush
  | glGetIntegerv
  | glReadBuffer
  | glReadPixels
  /-- A query `glGetError()` and the value it returned. -/
  | glGetError (error : Nat)
  /-- The attempt `Image::readPNG(filename)` and whether an image was loaded. -/
  | readPNG (filename : Str) (loaded : Bool)
  /-- The attempt `src.writePNG(filename)` and whether it succeeded. -/
  | writePNG (filename : Str) (written : Bool)
  /-- The comparison `src.compare(*ref)`, reported for call `call_no`. -/
  | compare (call_no : Nat)
  | stdout (text : Str)
  | stderr (text : Str)
  | state_dump
  /-- The line "Rendered `frame` frames in ... secs, average of ... fps". -/
  | summary (frame : Nat)
  | processEvents
  | createNativeWindowSystem
  | createVisual (double_buffer : Bool)
  | createDrawable
  | resize
  | createContext
  | makeCurrent
  /-- The attempt `parser.open(filename)` and whether it succeeded. -/
  | parser_open (filename : Str) (opened : Bool)
  | parser_close
deriving DecidableEq, Repr

/-- The mutable state of a run: the globals `frame` and `insideGlBeginEnd`, and
the log of what has been done so far, oldest event first. -/
structure State where
  frame : Nat
  insideGlBeginEnd : Bool
  log : List Event
deriving DecidableEq, Repr

/-- The state when `main` starts. -/
def State.initial : State := { frame := 0, insideGlBeginEnd := false, log := [] }

/-- Record one event. -/
def State.emit (s : State) (e : Event) : State := { s with log := s.log ++ [e] }

/-- The collaborators of the driver, which are not part of this file.  Each
answer may depend on everything that happened before, that is on the log.

* `PATH_MAX`: the size of the `filename` buffers, a constant of the system headers;
* `atoi`: the C library function;
* `callIdx_default`: the default argument of `checkGlError`, which is declared
  with the function in `glretrace.hpp`;
* `retrace_call`: the dispatcher; seen from the driver it runs the call and
  leaves a value in `insideGlBeginEnd` (given the value before); it is taken
  not to write the other globals of the driver (`frame`, the settings);
* `glGetError`: the error state the GL context reports;
* `readPNG`, `writePNG`: whether the image codec loads, writes the file;
* `parser_open`: the call stream of a trace file, `none` when it cannot be opened;
* `windowCloses`: whether `ws->processEvents()` eventually returns false. -/
structure Env where
  PATH_MAX : Nat
  atoi : Str → Int
  callIdx_default : Int
  retrace_call : List Event → Call → Bool → Bool
  glGetError : List Event → Nat
  readPNG : List Event → Str → Bool
  writePNG : List Event → Str → Bool
  parser_open : List Event → Str → Option (List Call)
  windowCloses : List Event → Bool

/-! ## `checkGlError` -/

/-- The value of `GL_NO_ERROR` in the OpenGL headers. -/
def GL_NO_ERROR : Nat := 0
/-- The value of `GL_INVALID_ENUM` in the OpenGL headers. -/
def GL_INVALID_ENUM : Nat := 0x0500
/-- The value of `GL_INVALID_VALUE` in the OpenGL headers. -/
def GL_INVALID_VALUE : Nat := 0x0501
/-- The value of `GL_INVALID_OPERATION` in the OpenGL headers. -/
def GL_INVALID_OPERATION : Nat := 0x0502
/-- The value of `GL_STACK_OVERFLOW` in the OpenGL headers. -/
def GL_STACK_OVERFLOW : Nat := 0x0503
/-- The value of `GL_STACK_UNDERFLOW` in the OpenGL headers. -/
def GL_STACK_UNDERFLOW : Nat := 0x0504
/-- The value of `GL_OUT_OF_MEMORY` in the OpenGL headers. -/
def GL_OUT_OF_MEMORY : Nat := 0x0505
/-- The value of `GL_INVALID_FRAMEBUFFER_OPERATION` in the OpenGL headers. -/
def GL_INVALID_FRAMEBUFFER_OPERATION : Nat := 0x0506
/-- The value of `GL_TABLE_TOO_LARGE` in the OpenGL headers. -/
def GL_TABLE_TOO_LARGE : Nat := 0x8031

/-- The text `std::cerr << callIdx` writes for an `int`. -/
def itoa (i : Int) : Str :=
  if i < 0 then '-' :: utoa i.natAbs else utoa i.natAbs

/-- The text the `switch` of `checkGlError` (lines 73-101) writes for `error`. -/
def errorText (error : Nat) : Str :=
  if error = GL_INVALID_ENUM then "GL_INVALID_ENUM".toList
  else if error = GL_INVALID_VALUE then "GL_INVALID_VALUE".toList
  else if error = GL_INVALID_OPERATION then "GL_INVALID_OPERATION".toList
  else if error = GL_STACK_OVERFLOW then "GL_STACK_OVERFLOW".toList
  else if error = GL_STACK_UNDERFLOW then "GL_STACK_UNDERFLOW".toList
  else if error = GL_OUT_OF_MEMORY then "GL_OUT_OF_MEMORY".toList
  else if error = GL_INVALID_FRAMEBUFFER_OPERATION then "GL_INVALID_FRAMEBUFFER_OPERATION".toList
  else if error = GL_TABLE_TOO_LARGE then "GL_TABLE_TOO_LARGE".toList
  else utoa error

/-- The function `checkGlError(callIdx)` (lines 57-103). -/
def checkGlError (env : Env) (cfg : Config) (s : State) (callIdx : Int) : State :=
  if cfg.benchmark || s.insideGlBeginEnd then s
  else
    let error := env.glGetError s.log
    let s := s.emit (.glGetError error)
    if error = GL_NO_ERROR then s
    else
      let s := if callIdx ≥ 0 then s.emit (.stderr (itoa callIdx ++ ": ".toList)) else s
      let s := s.emit (.stderr "warning: glGetError() = ".toList)
      let s := s.emit (.stderr (errorText error))
      s.emit (.stderr "\n".toList)

/-! ## `snapshot` and `frame_complete` -/

/-- The function `snapshot(image)` (lines 106-115).  `checkGlError()` is called
without argument, that is with the default argument. -/
def snapshot (env : Env) (cfg : Config) (s : State) : State :=
  let s := s.emit .glGetIntegerv
  let s := s.emit .glGetIntegerv
  let s := s.emit .glReadBuffer
  let s := s.emit .glReadPixels
  let s := checkGlError env cfg s env.callIdx_default
  s.emit .glReadBuffer

/-- Lines 134-148 of `frame_complete`: capture the pixels, write the snapshot
when `snapshot_prefix` is set, compare when a reference image `ref` is there. -/
def frame_complete_capture (env : Env) (cfg : Config) (s : State) (call_no : Nat)
    (ref : Bool) : State :=
  let s := snapshot env cfg s
  let s :=
    match Config.snapshot_prefix cfg with
    | some sp =>
      let filename := snprintf_png env.PATH_MAX sp call_no
      let written := env.writePNG s.log filename
      let s := s.emit (.writePNG filename written)
      if written && cfg.verbosity ≥ 0 then
        s.emit (.stdout ("Wrote ".toList ++ filename ++ "\n".toList))
      else s
    | none => s
  if ref then s.emit (.compare call_no) else s

/-- The function `frame_complete(call_no)` (lines 118-151). -/
def frame_complete (env : Env) (cfg : Config) (s : State) (call_no : Nat) : State :=
  let s := { s with frame := (s.frame + 1) % 2 ^ 32 }
  if (Config.snapshot_prefix cfg).isSome || (Config.compare_prefix cfg).isSome then
    match Config.compare_prefix cfg with
    | some cp =>
      let filename := snprintf_png env.PATH_MAX cp call_no
      let ref := env.readPNG s.log filename
      let s := s.emit (.readPNG filename ref)
      if !ref then s
      else
        let s :=
          if cfg.verbosity ≥ 0 then s.emit (.stdout ("Read ".toList ++ filename ++ "\n".toList))
          else s
        frame_complete_capture env cfg s call_no true
    | none => frame_complete_capture env cfg s call_no false
  else s

/-! ## `display` -/

/-- How a call of `display` ends. -/
inductive Outcome where
  /-- The call `exit(0)` after `state_dump` (line 192); `unread` are the calls
  still in the parser, never pulled. -/
  | dumped (s : State) (unread : List Call)
  /-- The call `exit(0)` at the end of the trace (line 214). -/
  | exited (s : State)
  /-- The event loop of `wait` ended and `display` returned to `main`. -/
  | returned (s : State)
  /-- The event loop of `wait` never ends. -/
  | blocked (s : State)
deriving DecidableEq, Repr

/-- The state in which `display` ends. -/
def Outcome.state : Outcome → State
  | .dumped s _ => s
  | .exited s => s
  | .returned s => s
  | .blocked s => s

/-- Whether the replay loop pulled the whole stream, that is did not stop at a state dump. -/
def Outcome.reachedEnd : Outcome → Bool
  | .dumped _ _ => false
  | _ => true

/-- The body of the replay loop for one call, lines 158-188: echo,
classification, frame boundary, dispatch. -/
def display_call (env : Env) (cfg : Config) (s : State) (call : Call) : State :=
  let s := if cfg.verbosity ≥ 1 then s.emit (.echo call) else s
  if isOsSpecific call.name then
    if call.name = "glXSwapBuffers".toList ∨ call.name = "wglSwapBuffers".toList then
      let s := frame_complete env cfg s call.no
      if cfg.double_buffer then s.emit .swapBuffers else s.emit .glFlush
    else if call.name = "glXMakeCurrent".toList ∨ call.name = "wglMakeCurrent".toList then
      let s := s.emit .glFlush
      if !cfg.double_buffer then frame_complete env cfg s call.no else s
    else s
  else
    { s with
      insideGlBeginEnd := env.retrace_call s.log call s.insideGlBeginEnd
      log := s.log ++ [.retrace_call call] }

/-- The condition of the state-dump check (line 190),
`!insideGlBeginEnd && call->no >= dump_state`, in the state `s` the call left. -/
def stateDumpDue (cfg : Config) (s : State) (call : Call) : Bool :=
  !s.insideGlBeginEnd && call.no ≥ cfg.dump_state

/-- The end of `display`, lines 198-215: flush, summary, then wait or exit. -/
def display_end (env : Env) (cfg : Config) (s : State) : Outcome :=
  let s := s.emit .glFlush
  let s := if cfg.verbosity ≥ -1 then s.emit (.summary s.frame) else s
  if cfg.wait then
    if env.windowCloses s.log then .returned (s.emit .processEvents) else .blocked s
  else .exited s

/-- The function `display()` (lines 154-216) run on the calls the parser still
holds: the replay loop with its state-dump check, then the end of trace. -/
def display (env : Env) (cfg : Config) : State → List Call → Outcome
  | s, [] => display_end env cfg s
  | s, call :: rest =>
    let s := display_call env cfg s call
    if stateDumpDue cfg s call then .dumped (s.emit .state_dump) rest
    else display env cfg s rest

/-! ## `main` -/

/-- How the option loop of `main` (lines 238-271) ends. -/
inductive Options where
  /-- The loop is left normally, at `argv[argc]` or by a `break`; `rest` are
  the arguments from `argv[i]` on. -/
  | run (cfg : Config) (rest : List Str)
  /-- The option `--help` was reached. -/
  | help
  /-- An unknown option `arg` was reached. -/
  | unknown (arg : Str)
  /-- The option `-D` was the last argument: `atoi(NULL)`. -/
  | undefined
deriving DecidableEq, Repr

/-- The option loop of `main` (lines 238-271) on `argv[i], ..., argv[argc - 1]`,
where `argv[argc]` is `NULL`. -/
def optionLoop (atoi : Str → Int) : Config → List Str → Options
  | cfg, [] => .run cfg []
  | cfg, arg :: rest =>
    if charAt arg 0 ≠ '-' then .run cfg (arg :: rest)
    else if arg = "--".toList then .run cfg (arg :: rest)
    else if arg = "-b".toList then
      optionLoop atoi { cfg with benchmark := true, verbosity := -1 } rest
    else if arg = "-c".toList then
      match rest with
      | [] => .run { cfg with compare_prefix := none } []
      | value :: rest => optionLoop atoi { cfg with compare_prefix := some value } rest
    else if arg = "-D".toList then
      match rest with
      | [] => .undefined
      | value :: rest =>
        optionLoop atoi { cfg with dump_state := (atoi value % 2 ^ 32).toNat, verbosity := -2 } rest
    else if arg = "-db".toList then optionLoop atoi { cfg with double_buffer := true } rest
    else if arg = "--help".toList then .help
    else if arg = "-s".toList then
      match rest with
      | [] => .run { cfg with snapshot_prefix := none } []
      | value :: rest => optionLoop atoi { cfg with snapshot_prefix := some value } rest
    else if arg = "-v".toList then optionLoop atoi { cfg with verbosity := cfg.verbosity + 1 } rest
    else if arg = "-w".toList then optionLoop atoi { cfg with wait := true } rest
    else .unknown arg

/-- The text `usage()` prints (lines 219-231). -/
def usageText : Str :=
  ("Usage: glretrace [OPTION] TRACE\n" ++
   "Replay TRACE.\n" ++
   "\n" ++
   "  -b           benchmark (no glgeterror; no messages)\n" ++
   "  -c PREFIX    compare against snapshots\n" ++
   "  -db          use a double buffer visual\n" ++
   "  -s PREFIX    take snapshots\n" ++
   "  -v           verbose output\n" ++
   "  -D CALLNO    dump state at specific call no\n" ++
   "  -w           wait on final frame\n").toList

/-- The function `usage()`. -/
def usage (s : State) : State := s.emit (.stdout usageText)

/-- How the process ends. -/
inductive Status where
  /-- The statement `return code` of `main`. -/
  | returned (code : Int)
  /-- A call `exit(code)`. -/
  | exited (code : Int)
  /-- The event loop of `wait` never ends. -/
  | blocked
  /-- The behaviour is undefined (`atoi(NULL)`). -/
  | undefined
deriving DecidableEq, Repr

/-- A run of `main`: how it ended and the state it ended in. -/
structure Run where
  status : Status
  state : State
deriving DecidableEq, Repr

/-- The loop over the trace files (lines 280-286). -/
def main_replay (env : Env) (cfg : Config) : State → List Str → Run
  | s, [] => { status := .returned 0, state := s }
  | s, file :: files =>
    match env.parser_open s.log file with
    | none => main_replay env cfg (s.emit (.parser_open file false)) files
    | some calls =>
      match display env cfg (s.emit (.parser_open file true)) calls with
      | .returned s => main_replay env cfg (s.emit .parser_close) files
      | .dumped s _ => { status := .exited 0, state := s }
      | .exited s => { status := .exited 0, state := s }
      | .blocked s => { status := .blocked, state := s }

/-- The creation of the window system, visual, drawable and context (lines 273-278). -/
def createWindow (cfg : Config) (s : State) : State :=
  let s := s.emit .createNativeWindowSystem
  let s := s.emit (.createVisual cfg.double_buffer)
  let s := s.emit .createDrawable
  let s := s.emit .resize
  let s := s.emit .createContext
  s.emit .makeCurrent

/-- The function `main(argc, argv)` (lines 234-289) on the arguments
`argv[1], ..., argv[argc - 1]`. -/
def main (env : Env) (args : List Str) : Run :=
  match optionLoop env.atoi Config.initial args with
  | .help => { status := .returned 0, state := usage State.initial }
  | .unknown arg =>
    { status := .returned 1
      state := usage (State.initial.emit
        (.stderr ("error: unknown option ".toList ++ arg ++ "\n".toList))) }
  | .undefined => { status := .undefined, state := State.initial }
  | .run cfg rest => main_replay env cfg (createWindow cfg State.initial) rest

/-! ## Observations on a run, and the vocabulary of the specification -/

/-- The state after the loop body has run on each of `calls` in turn, the
state-dump check left aside. -/
def replay (env : Env) (cfg : Config) (s : State) (calls : List Call) : State :=
  calls.foldl (display_call env cfg) s

/-- The call of a dispatch event. -/
def Event.dispatchedCall : Event → Option Call
  | .retrace_call call => some call
  | _ => none

/-- The calls handed to the dispatcher, in order. -/
def dispatched (log : List Event) : List Call := log.filterMap Event.dispatchedCall

/-- The sequence number of a comparison event. -/
def Event.comparedCall : Event → Option Nat
  | .compare call_no => some call_no
  | _ => none

/-- The sequence numbers for which a comparison was made, in order. -/
def comparisons (log : List Event) : List Nat := log.filterMap Event.comparedCall

/-- The frame count of a summary event. -/
def Event.summaryFrame : Event → Option Nat
  | .summary frame => some frame
  | _ => none

/-- The frame counts of the summary lines printed, in order. -/
def summaries (log : List Event) : List Nat := log.filterMap Event.summaryFrame

/-- The file name of an attempt to load a reference image. -/
def Event.referenceFile : Event → Option Str
  | .readPNG filename _ => some filename
  | _ => none

/-- The names of the reference files whose loading was attempted, in order. -/
def referenceFiles (log : List Event) : List Str := log.filterMap Event.referenceFile

/-- The file name of an attempt to write a snapshot. -/
def Event.snapshotFile : Event → Option Str
  | .writePNG filename _ => some filename
  | _ => none

/-- The names of the snapshot files whose writing was attempted, in order. -/
def snapshotFiles (log : List Event) : List Str := log.filterMap Event.snapshotFile

/-- The text of an event that writes to the standard error stream. -/
def Event.stderrOutput : Event → Option Str
  | .stderr text => some text
  | _ => none

/-- Everything written to the standard error stream. -/
def stderrText (log : List Event) : Str := (log.filterMap Event.stderrOutput).flatten

/-- The events `snapshot` can leave in the log. -/
def Event.ofSnapshot : Event → Bool
  | .glGetIntegerv | .glReadBuffer | .glReadPixels | .glGetError _ | .stderr _ => true
  | _ => false

/-- The events `frame_complete` can leave in the log. -/
def Event.ofFrameComplete : Event → Bool
  | .readPNG _ _ | .writePNG _ _ | .compare _ | .stdout _ | .stderr _
  | .glGetIntegerv | .glReadBuffer | .glReadPixels | .glGetError _ => true
  | _ => false

/-- A frame boundary in the words of the specification: a buffer-swap call,
or a make-current call when single-buffered. -/
def isFrameBoundary (double_buffer : Bool) (name : Str) : Bool :=
  name = "glXSwapBuffers".toList || name = "wglSwapBuffers".toList ||
  (!double_buffer && (name = "glXMakeCurrent".toList || name = "wglMakeCurrent".toList))

/-- A name that begins with "wgl" or "glX". -/
def hasOsPrefix (name : Str) : Bool :=
  "wgl".toList.isPrefixOf name || "glX".toList.isPrefixOf name

/-- The `k` low decimal digits of `n`, most significant first. -/
def lowDigits : Nat → Nat → Str
  | 0, _ => []
  | k + 1, n => lowDigits k (n / 10) ++ [digit (n % 10)]

/-- The symbolic names of the error codes, as a table. -/
def errorNames : List (Nat × Str) :=
  [(GL_INVALID_ENUM, "GL_INVALID_ENUM".toList),
   (GL_INVALID_VALUE, "GL_INVALID_VALUE".toList),
   (GL_INVALID_OPERATION, "GL_INVALID_OPERATION".toList),
   (GL_STACK_OVERFLOW, "GL_STACK_OVERFLOW".toList),
   (GL_STACK_UNDERFLOW, "GL_STACK_UNDERFLOW".toList),
   (GL_OUT_OF_MEMORY, "GL_OUT_OF_MEMORY".toList),
   (GL_INVALID_FRAMEBUFFER_OPERATION, "GL_INVALID_FRAMEBUFFER_OPERATION".toList),
   (GL_TABLE_TOO_LARGE, "GL_TABLE_TOO_LARGE".toList)]

/-- The name of an error in the words of the specification: its symbolic name
when it is in the table, its numeric code in decimal otherwise. -/
def errorName (error : Nat) : Str :=
  match errorNames.lookup error with
  | some name => name
  | none => utoa error

/-- A command-line flag, a value-taking flag together with its value. -/
inductive Flag where
  | b
  | c (value : Str)
  | D (value : Str)
  | db
  | s (value : Str)
  | v
  | w
deriving DecidableEq, Repr

/-- The tokens of a flag on the command line. -/
def Flag.tokens : Flag → List Str
  | .b => ["-b".toList]
  | .c value => ["-c".toList, value]
  | .D value => ["-D".toList, value]
  | .db => ["-db".toList]
  | .s value => ["-s".toList, value]
  | .v => ["-v".toList]
  | .w => ["-w".toList]

/-- The command line of a list of flags. -/
def flagArgs (flags : List Flag) : List Str := (flags.map Flag.tokens).flatten

/-- What the option loop does to the configuration for one flag. -/
def Flag.apply (atoi : Str → Int) (cfg : Config) : Flag → Config
  | .b => { cfg with benchmark := true, verbosity := -1 }
  | .c value => { cfg with compare_prefix := some value }
  | .D value => { cfg with dump_state := (atoi value % 2 ^ 32).toNat, verbosity := -2 }
  | .db => { cfg with double_buffer := true }
  | .s value => { cfg with snapshot_prefix := some value }
  | .v => { cfg with verbosity := cfg.verbosity + 1 }
  | .w => { cfg with wait := true }

/-- The options `main` recognises. -/
def recognisedOptions : List Str :=
  ["--".toList, "-b".toList, "-c".toList, "-D".toList, "-db".toList, "--help".toList,
   "-s".toList, "-v".toList, "-w".toList]

/-! ## Concrete collaborators and inputs for the examples -/

/-- A dispatcher that tracks `glBegin` and `glEnd`, a GL context without
errors, no reference image on disk, a window that gets closed, and an `atoi`
that answers 10; every trace file holds the one call `glXSwapBuffers` with
sequence number 0. -/
def sampleEnv : Env where
  PATH_MAX := 4096
  atoi := fun _ => 10
  callIdx_default := -1
  retrace_call := fun _ call inside =>
    if call.name = "glBegin".toList then true
    else if call.name = "glEnd".toList then false
    else inside
  glGetError := fun _ => GL_NO_ERROR
  readPNG := fun _ _ => false
  writePNG := fun _ _ => true
  parser_open := fun _ _ => some [{ no := 0, name := "glXSwapBuffers".toList }]
  windowCloses := fun _ => true

/-- The environment `sampleEnv` with a GL context that reports `GL_INVALID_ENUM`. -/
def sampleEnvWithError : Env := { sampleEnv with glGetError := fun _ => GL_INVALID_ENUM }

/-- A trace with three buffer swaps. -/
def sampleTrace : List Call :=
  [{ no := 0, name := "glClear".toList },
   { no := 1, name := "glXSwapBuffers".toList },
   { no := 2, name := "glXMakeCurrent".toList },
   { no := 3, name := "glBegin".toList },
   { no := 4, name := "glVertex3f".toList },
   { no := 5, name := "glEnd".toList },
   { no := 6, name := "glXSwapBuffers".toList },
   { no := 7, name := "glXChooseVisual".toList },
   { no := 8, name := "wglSwapBuffers".toList }]

/-- The configuration `-D 4` leaves: state dump from call 4 on. -/
def sampleDumpConfig : Config := { Config.initial with dump_state := 4, verbosity := -2 }

/-- A prefix of 4090 characters. -/
def longPrefix : Str := List.replicate 4090 '/'

/-- A configuration whose reference-file prefix has 4090 characters. -/
def longPrefixConfig : Config := { Config.initial with compare_prefix := some longPrefix }

/-- The configuration `-c /tmp/ref -s /tmp/out` leaves. -/
def sampleCompareConfig : Config :=
  { Config.initial with
    compare_prefix := some "/tmp/ref".toList
    snapshot_prefix := some "/tmp/out".toList }

/-! # Theorems -/

/-! ## Basic facts: what each function leaves in the state -/

@[simp] theorem State.emit_frame (s : State) (e : Event) : (s.emit e).frame = s.frame := rfl

@[simp] theorem State.emit_insideGlBeginEnd (s : State) (e : Event) :
    (s.emit e).insideGlBeginEnd = s.insideGlBeginEnd := rfl

@[simp] theorem State.emit_log (s : State) (e : Event) : (s.emit e).log = s.log ++ [e] := rfl

@[simp] theorem checkGlError_frame (env : Env) (cfg : Config) (s : State) (i : Int) :
    (checkGlError env cfg s i).frame = s.frame := by
  unfold checkGlError
  dsimp only
  split_ifs <;> simp

@[simp] theorem checkGlError_insideGlBeginEnd (env : Env) (cfg : Config) (s : State) (i : Int) :
    (checkGlError env cfg s i).insideGlBeginEnd = s.insideGlBeginEnd := by
  unfold checkGlError
  dsimp only
  split_ifs <;> simp

theorem checkGlError_filterMap {β : Type} (f : Event → Option β)
    (hf : ∀ e, Event.ofSnapshot e = true → f e = none)
    (env : Env) (cfg : Config) (s : State) (i : Int) :
    (checkGlError env cfg s i).log.filterMap f = s.log.filterMap f := by
  have h1 : ∀ e, f (.glGetError e) = none := fun e => hf _ rfl
  have h2 : ∀ t, f (.stderr t) = none := fun t => hf _ rfl
  unfold checkGlError
  dsimp only
  split_ifs <;> simp [List.filterMap_append, h1, h2]

@[simp] theorem snapshot_frame (env : Env) (cfg : Config) (s : State) :
    (snapshot env cfg s).frame = s.frame := by
  simp [snapshot]

@[simp] theorem snapshot_insideGlBeginEnd (env : Env) (cfg : Config) (s : State) :
    (snapshot env cfg s).insideGlBeginEnd = s.insideGlBeginEnd := by
  simp [snapshot]

theorem snapshot_filterMap {β : Type} (f : Event → Option β)
    (hf : ∀ e, Event.ofSnapshot e = true → f e = none)
    (env : Env) (cfg : Config) (s : State) :
    (snapshot env cfg s).log.filterMap f = s.log.filterMap f := by
  have h1 : f .glGetIntegerv = none := hf _ rfl
  have h2 : f .glReadBuffer = none := hf _ rfl
  have h3 : f .glReadPixels = none := hf _ rfl
  simp [snapshot, List.filterMap_append, checkGlError_filterMap f hf, h1, h2, h3]

@[simp] theorem frame_complete_capture_frame (env : Env) (cfg : Config) (s : State) (n : Nat)
    (ref : Bool) : (frame_complete_capture env cfg s n ref).frame = s.frame := by
  unfold frame_complete_capture
  cases Config.snapshot_prefix cfg <;> simp <;> split_ifs <;> simp

@[simp] theorem frame_complete_capture_insideGlBeginEnd (env : Env) (cfg : Config) (s : State)
    (n : Nat) (ref : Bool) :
    (frame_complete_capture env cfg s n ref).insideGlBeginEnd = s.insideGlBeginEnd := by
  unfold frame_complete_capture
  cases Config.snapshot_prefix cfg <;> simp <;> split_ifs <;> simp

theorem frame_complete_capture_filterMap {β : Type} (f : Event → Option β)
    (hf : ∀ e, Event.ofFrameComplete e = true → f e = none)
    (env : Env) (cfg : Config) (s : State) (n : Nat) (ref : Bool) :
    (frame_complete_capture env cfg s n ref).log.filterMap f = s.log.filterMap f := by
  have h1 : ∀ a b, f (.writePNG a b) = none := fun a b => hf _ rfl
  have h2 : ∀ t, f (.stdout t) = none := fun t => hf _ rfl
  have h3 : ∀ a, f (.compare a) = none := fun a => hf _ rfl
  have hs : ∀ e, Event.ofSnapshot e = true → f e = none := by
    intro e he
    apply hf
    cases e <;> simp_all [Event.ofSnapshot, Event.ofFrameComplete]
  unfold frame_complete_capture
  cases Config.snapshot_prefix cfg <;> simp <;> split_ifs <;>
    simp [List.filterMap_append, snapshot_filterMap f hs, h1, h2, h3]

theorem frame_complete_frame (env : Env) (cfg : Config) (s : State) (n : Nat) :
    (frame_complete env cfg s n).frame = (s.frame + 1) % 2 ^ 32 := by
  unfold frame_complete
  cases Config.compare_prefix cfg <;> simp <;> split_ifs <;> simp

@[simp] theorem frame_complete_insideGlBeginEnd (env : Env) (cfg : Config) (s : State) (n : Nat) :
    (frame_complete env cfg s n).insideGlBeginEnd = s.insideGlBeginEnd := by
  unfold frame_complete
  cases Config.compare_prefix cfg <;> simp <;> split_ifs <;> simp

theorem frame_complete_filterMap {β : Type} (f : Event → Option β)
    (hf : ∀ e, Event.ofFrameComplete e = true → f e = none)
    (env : Env) (cfg : Config) (s : State) (n : Nat) :
    (frame_complete env cfg s n).log.filterMap f = s.log.filterMap f := by
  have h1 : ∀ a b, f (.readPNG a b) = none := fun a b => hf _ rfl
  have h2 : ∀ t, f (.stdout t) = none := fun t => hf _ rfl
  unfold frame_complete
  cases Config.compare_prefix cfg <;> simp <;> split_ifs <;>
    simp [List.filterMap_append, frame_complete_capture_filterMap f hf, h1, h2]

/-! ## The name test -/

theorem charAt_lt (name : Str) (i : Nat) (ch : Char) (hch : ch ≠ NUL)
    (h : (charAt name i == ch) = true) : i < name.length := by
  by_contra hn
  have hle : name.length ≤ i := Nat.le_of_not_lt hn
  have hnul : charAt name i = NUL := by
    unfold charAt
    rw [List.getD_eq_default _ _ hle]
  rw [hnul] at h
  have h2 : NUL = ch := by simpa using h
  exact hch h2.symm

theorem prefix3_iff (a b c : Char) (ha : a ≠ NUL) (hb : b ≠ NUL) (hc : c ≠ NUL) (name : Str) :
    [a, b, c] <+: name ↔
      ((charAt name 0 == a) = true ∧ (charAt name 1 == b) = true ∧
        (charAt name 2 == c) = true) := by
  match name with
  | [] => simp [charAt, Ne.symm ha, ha]
  | [x] => simp [charAt, List.prefix_cons_inj, Ne.symm hb, hb]
  | [x, y] => simp [charAt, List.prefix_cons_inj, Ne.symm hc, hc]
  | x :: y :: z :: rest =>
    simp [charAt, List.prefix_cons_inj]
    constructor <;> rintro ⟨rfl, rfl, rfl⟩ <;> simp

theorem osSpecificTest_spec (name : Str) :
    (∀ i ∈ (osSpecificTest name).reads, i ≤ name.length) ∧
    ((osSpecificTest name).result = true ↔
      ("wgl".toList <+: name ∨ "glX".toList <+: name)) := by
  have hs1 : "wgl".toList = ['w', 'g', 'l'] := rfl
  have hs2 : "glX".toList = ['g', 'l', 'X'] := rfl
  rw [hs1, hs2, prefix3_iff _ _ _ (by decide) (by decide) (by decide),
    prefix3_iff _ _ _ (by decide) (by decide) (by decide)]
  have h1 := charAt_lt name 0 'w' (by decide)
  have h2 := charAt_lt name 1 'g' (by decide)
  have h3 := charAt_lt name 0 'g' (by decide)
  have h4 := charAt_lt name 1 'l' (by decide)
  unfold osSpecificTest Probe.or Probe.and Probe.test
  generalize (charAt name 0 == 'w') = b1 at *
  generalize (charAt name 1 == 'g') = b2 at *
  generalize (charAt name 2 == 'l') = b3 at *
  generalize (charAt name 0 == 'g') = b4 at *
  generalize (charAt name 1 == 'l') = b5 at *
  generalize (charAt name 2 == 'X') = b6 at *
  cases b1 <;> cases b2 <;> cases b3 <;> cases b4 <;> cases b5 <;> cases b6 <;>
    simp at h1 h2 h3 h4 ⊢ <;> omega

theorem isOsSpecific_eq_hasOsPrefix (name : Str) : isOsSpecific name = hasOsPrefix name := by
  have h := (osSpecificTest_spec name).2
  rw [Bool.eq_iff_iff]
  unfold isOsSpecific hasOsPrefix
  rw [h]
  simp [List.isPrefixOf_iff_prefix]

/-! ## One turn of the replay loop -/

theorem display_call_frame (env : Env) (cfg : Config) (s : State) (call : Call) :
    (display_call env cfg s call).frame =
      if isFrameBoundary cfg.double_buffer call.name then (s.frame + 1) % 2 ^ 32 else s.frame := by
  have n1 : "glXSwapBuffers".toList ≠ "glXMakeCurrent".toList := by decide
  have n2 : "glXSwapBuffers".toList ≠ "wglMakeCurrent".toList := by decide
  have n3 : "wglSwapBuffers".toList ≠ "glXMakeCurrent".toList := by decide
  have n4 : "wglSwapBuffers".toList ≠ "wglMakeCurrent".toList := by decide
  have hecho : (if cfg.verbosity ≥ 1 then s.emit (.echo call) else s).frame = s.frame := by
    split_ifs <;> rfl
  unfold display_call
  dsimp only
  generalize (if cfg.verbosity ≥ 1 then s.emit (.echo call) else s) = s1 at hecho ⊢
  by_cases h1 : call.name = "glXSwapBuffers".toList
  · have hos : isOsSpecific call.name = true := by rw [h1]; decide
    have hb : isFrameBoundary cfg.double_buffer call.name = true := by
      unfold isFrameBoundary; rw [h1]; simp
    rw [if_pos hos, if_pos (Or.inl h1), if_pos hb]
    split_ifs <;> simp [frame_complete_frame, hecho]
  by_cases h2 : call.name = "wglSwapBuffers".toList
  · have hos : isOsSpecific call.name = true := by rw [h2]; decide
    have hb : isFrameBoundary cfg.double_buffer call.name = true := by
      unfold isFrameBoundary; rw [h2]; simp
    rw [if_pos hos, if_pos (Or.inr h2), if_pos hb]
    split_ifs <;> simp [frame_complete_frame, hecho]
  have hswap : ¬ (call.name = "glXSwapBuffers".toList ∨ call.name = "wglSwapBuffers".toList) := by
    rintro (h | h)
    · exact h1 h
    · exact h2 h
  rw [if_neg hswap]
  by_cases h3 : call.name = "glXMakeCurrent".toList ∨ call.name = "wglMakeCurrent".toList
  · have hos : isOsSpecific call.name = true := by
      rcases h3 with h | h <;> rw [h] <;> decide
    have hb : isFrameBoundary cfg.double_buffer call.name = !cfg.double_buffer := by
      unfold isFrameBoundary
      rcases h3 with h | h <;> rw [h] <;> simp
    rw [if_pos hos, if_pos h3, hb]
    cases cfg.double_buffer <;> simp [frame_complete_frame, hecho]
  · have hb : isFrameBoundary cfg.double_buffer call.name = false := by
      unfold isFrameBoundary
      have h5 : ¬ call.name = "glXMakeCurrent".toList := fun h => h3 (Or.inl h)
      have h6 : ¬ call.name = "wglMakeCurrent".toList := fun h => h3 (Or.inr h)
      simp only [h1, h2, h5, h6]
      simp
    rw [if_neg h3, hb]
    simp only [Bool.false_eq_true, if_false]
    split_ifs <;> simp [hecho]

theorem display_call_filterMap {β : Type} (f : Event → Option β)
    (hf : ∀ e, Event.ofFrameComplete e = true → f e = none)
    (hecho : ∀ c, f (.echo c) = none) (hswap : f .swapBuffers = none)
    (hflush : f .glFlush = none)
    (env : Env) (cfg : Config) (s : State) (call : Call) :
    (display_call env cfg s call).log.filterMap f =
      s.log.filterMap f ++
        if isOsSpecific call.name then [] else (f (.retrace_call call)).toList := by
  unfold display_call
  dsimp only
  cases h : f (.retrace_call call) <;> split_ifs <;>
    simp [List.filterMap_append, frame_complete_filterMap f hf, hecho, hswap, hflush, h]

/-! ## The replay loop -/

theorem replay_nil (env : Env) (cfg : Config) (s : State) : replay env cfg s [] = s := rfl

theorem replay_cons (env : Env) (cfg : Config) (s : State) (call : Call) (calls : List Call) :
    replay env cfg s (call :: calls) = replay env cfg (display_call env cfg s call) calls := rfl

theorem replay_append (env : Env) (cfg : Config) (s : State) (xs ys : List Call) :
    replay env cfg s (xs ++ ys) = replay env cfg (replay env cfg s xs) ys := by
  simp [replay, List.foldl_append]

theorem display_call_frame_lt (env : Env) (cfg : Config) (s : State) (call : Call)
    (h : s.frame < 2 ^ 32) : (display_call env cfg s call).frame < 2 ^ 32 := by
  rw [display_call_frame]
  split_ifs
  · exact Nat.mod_lt _ (by decide)
  · exact h

theorem replay_frame (env : Env) (cfg : Config) (calls : List Call) :
    ∀ s : State, s.frame < 2 ^ 32 →
      (replay env cfg s calls).frame =
        (s.frame + calls.countP (fun c => isFrameBoundary cfg.double_buffer c.name)) % 2 ^ 32 := by
  induction calls with
  | nil =>
    intro s h
    simp only [replay_nil, List.countP_nil, Nat.add_zero]
    exact (Nat.mod_eq_of_lt h).symm
  | cons call calls ih =>
    intro s h
    rw [replay_cons, ih _ (display_call_frame_lt env cfg s call h), display_call_frame,
      List.countP_cons]
    simp only [Nat.reducePow] at h ⊢
    split_ifs <;> omega

theorem dispatched_append (xs ys : List Event) :
    dispatched (xs ++ ys) = dispatched xs ++ dispatched ys := by
  simp [dispatched, List.filterMap_append]

theorem summaries_append (xs ys : List Event) :
    summaries (xs ++ ys) = summaries xs ++ summaries ys := by
  simp [summaries, List.filterMap_append]

theorem display_call_dispatched (env : Env) (cfg : Config) (s : State) (call : Call) :
    dispatched (display_call env cfg s call).log =
      dispatched s.log ++ if isOsSpecific call.name then [] else [call] := by
  unfold dispatched
  rw [display_call_filterMap _
    (by intro e he; cases e <;> simp_all [Event.ofFrameComplete, Event.dispatchedCall])
    (fun _ => rfl) rfl rfl]
  rfl

theorem display_call_summaries (env : Env) (cfg : Config) (s : State) (call : Call) :
    summaries (display_call env cfg s call).log = summaries s.log := by
  unfold summaries
  rw [display_call_filterMap _
    (by intro e he; cases e <;> simp_all [Event.ofFrameComplete, Event.summaryFrame])
    (fun _ => rfl) rfl rfl]
  simp [Event.summaryFrame]

theorem replay_dispatched (env : Env) (cfg : Config) (calls : List Call) :
    ∀ s : State, dispatched (replay env cfg s calls).log =
      dispatched s.log ++ calls.filter (fun c => !hasOsPrefix c.name) := by
  induction calls with
  | nil => intro s; simp [replay_nil]
  | cons call calls ih =>
    intro s
    rw [replay_cons, ih, display_call_dispatched, List.filter_cons, isOsSpecific_eq_hasOsPrefix]
    cases hasOsPrefix call.name <;> simp

theorem replay_summaries (env : Env) (cfg : Config) (calls : List Call) :
    ∀ s : State, summaries (replay env cfg s calls).log = summaries s.log := by
  induction calls with
  | nil => intro s; rfl
  | cons call calls ih =>
    intro s
    rw [replay_cons, ih, display_call_summaries]

theorem display_end_reachedEnd (env : Env) (cfg : Config) (s : State) :
    (display_end env cfg s).reachedEnd = true := by
  unfold display_end
  dsimp only
  split_ifs <;> rfl

theorem display_end_frame (env : Env) (cfg : Config) (s : State) :
    (display_end env cfg s).state.frame = s.frame := by
  unfold display_end
  dsimp only
  split_ifs <;> rfl

theorem display_end_dispatched (env : Env) (cfg : Config) (s : State) :
    dispatched (display_end env cfg s).state.log = dispatched s.log := by
  unfold display_end
  dsimp only
  split_ifs <;> simp [Outcome.state, dispatched_append, dispatched, Event.dispatchedCall]

theorem display_cons (env : Env) (cfg : Config) (s : State) (call : Call) (rest : List Call) :
    display env cfg s (call :: rest) =
      if stateDumpDue cfg (display_call env cfg s call) call then
        .dumped ((display_call env cfg s call).emit .state_dump) rest
      else display env cfg (display_call env cfg s call) rest := rfl

theorem display_append_of_reachedEnd (env : Env) (cfg : Config) (calls rest : List Call) :
    ∀ s : State, (display env cfg s calls).reachedEnd = true →
      display env cfg s (calls ++ rest) = display env cfg (replay env cfg s calls) rest := by
  induction calls with
  | nil => intro s _; rfl
  | cons call calls ih =>
    intro s h
    rw [display_cons] at h
    rw [List.cons_append, display_cons, replay_cons]
    split_ifs with hdue
    · rw [if_pos hdue] at h
      exact absurd h (by simp [Outcome.reachedEnd])
    · rw [if_neg hdue] at h
      exact ih _ h

theorem display_of_reachedEnd (env : Env) (cfg : Config) (s : State) (calls : List Call)
    (h : (display env cfg s calls).reachedEnd = true) :
    display env cfg s calls = display_end env cfg (replay env cfg s calls) := by
  have h2 := display_append_of_reachedEnd env cfg calls [] s h
  rw [List.append_nil] at h2
  rw [h2]
  rfl

theorem reachedEnd_of_not_due (env : Env) (cfg : Config) (calls : List Call) :
    ∀ s : State,
      (∀ k (hk : k < calls.length),
        stateDumpDue cfg (replay env cfg s (calls.take (k + 1))) calls[k] = false) →
      (display env cfg s calls).reachedEnd = true := by
  induction calls with
  | nil => intro s _; exact display_end_reachedEnd env cfg s
  | cons call calls ih =>
    intro s h
    have h0 := h 0 (by simp)
    simp only [List.take_succ_cons, List.take_zero, replay_cons, replay_nil,
      List.getElem_cons_zero] at h0
    rw [display_cons, if_neg (by simp [h0])]
    apply ih
    intro k hk
    have hk1 := h (k + 1) (by simpa using hk)
    simpa [replay_cons] using hk1

/-! ## The file names and the work of `frame_complete` -/

theorem lowDigits_zero (k : Nat) : lowDigits k 0 = List.replicate k '0' := by
  induction k with
  | zero => rfl
  | succ k ih =>
    simp only [lowDigits, Nat.zero_div, Nat.zero_mod, ih]
    rw [List.replicate_succ']
    rfl

theorem tenDigits_eq_lowDigits (n : Nat) : tenDigits n = lowDigits 10 n := by
  simp [tenDigits, lowDigits, Nat.div_div_eq_div_mul]

theorem utoaFuel_pad (k : Nat) : ∀ n fuel : Nat, 0 < k → n < 10 ^ k → n < fuel →
    (utoaFuel fuel n).length ≤ k ∧
    List.replicate (k - (utoaFuel fuel n).length) '0' ++ utoaFuel fuel n = lowDigits k n := by
  induction k with
  | zero => intro n fuel hk; omega
  | succ k ih =>
    intro n fuel _ hn hfuel
    obtain ⟨f, rfl⟩ : ∃ f, fuel = f + 1 := ⟨fuel - 1, by omega⟩
    by_cases h10 : n < 10
    · have hdiv : n / 10 = 0 := Nat.div_eq_of_lt h10
      have hmod : n % 10 = n := Nat.mod_eq_of_lt h10
      simp [utoaFuel, h10, lowDigits, hdiv, hmod, lowDigits_zero]
    · have hk : 0 < k := by
        rcases Nat.eq_zero_or_pos k with h0 | h0
        · subst h0; simp at hn; omega
        · exact h0
      have hn2 : n / 10 < 10 ^ k := by
        rw [Nat.div_lt_iff_lt_mul (by decide)]
        rw [pow_succ] at hn; exact hn
      have hf2 : n / 10 < f := by omega
      obtain ⟨hlen, hpad⟩ := ih (n / 10) f hk hn2 hf2
      simp only [utoaFuel, h10, if_false, List.length_append, List.length_singleton, lowDigits]
      refine ⟨by omega, ?_⟩
      rw [← hpad, Nat.add_sub_add_right, List.append_assoc]

theorem fmt_010u_eq_tenDigits (n : Nat) (hn : n < 2 ^ 32) : fmt_010u n = tenDigits n := by
  have h := utoaFuel_pad 10 n (n + 1) (by decide) (by omega) (by omega)
  rw [tenDigits_eq_lowDigits]
  exact h.2

theorem snprintf_png_eq (size : Nat) (pfx : Str) (n : Nat) (hn : n < 2 ^ 32) :
    snprintf_png size pfx n = (pfx ++ tenDigits n ++ ".png".toList).take (size - 1) := by
  unfold snprintf_png
  rw [fmt_010u_eq_tenDigits n hn]

theorem snprintf_png_fits (size : Nat) (pfx : Str) (n : Nat) (hn : n < 2 ^ 32)
    (hfit : pfx.length + 14 < size) :
    snprintf_png size pfx n = pfx ++ tenDigits n ++ ".png".toList := by
  rw [snprintf_png_eq size pfx n hn]
  apply List.take_of_length_le
  simp [tenDigits]
  omega

theorem snprintf_png_length_le (size : Nat) (pfx : Str) (n : Nat) :
    (snprintf_png size pfx n).length ≤ size - 1 := by
  unfold snprintf_png
  rw [List.length_take]
  exact Nat.min_le_left _ _

theorem snapshot_comparisons (env : Env) (cfg : Config) (s : State) :
    List.filterMap Event.comparedCall (snapshot env cfg s).log =
      List.filterMap Event.comparedCall s.log :=
  snapshot_filterMap _
    (by intro e he; cases e <;> simp_all [Event.ofSnapshot, Event.comparedCall]) env cfg s

theorem frame_complete_capture_comparisons (env : Env) (cfg : Config) (s : State) (n : Nat)
    (ref : Bool) :
    comparisons (frame_complete_capture env cfg s n ref).log =
      comparisons s.log ++ if ref then [n] else [] := by
  unfold frame_complete_capture
  dsimp only
  cases Config.snapshot_prefix cfg with
  | none =>
    dsimp only
    cases ref <;>
      simp [comparisons, List.filterMap_append, snapshot_comparisons, Event.comparedCall]
  | some sp =>
    dsimp only
    cases ref <;> simp only [Bool.false_eq_true, if_false, if_true] <;> split_ifs <;>
      simp [comparisons, List.filterMap_append, snapshot_comparisons, Event.comparedCall]

theorem frame_complete_comparisons (env : Env) (cfg : Config) (s : State) (n : Nat) :
    comparisons (frame_complete env cfg s n).log =
      comparisons s.log ++
        match Config.compare_prefix cfg with
        | some cp => if env.readPNG s.log (snprintf_png env.PATH_MAX cp n) then [n] else []
        | none => [] := by
  unfold frame_complete
  dsimp only
  cases hcp : Config.compare_prefix cfg with
  | none =>
    dsimp only
    split_ifs <;> simp [frame_complete_capture_comparisons]
  | some cp =>
    dsimp only
    rw [if_pos (by simp)]
    cases hload : env.readPNG s.log (snprintf_png env.PATH_MAX cp n)
    · simp [comparisons, List.filterMap_append, Event.comparedCall]
    · simp only [Bool.not_true, Bool.false_eq_true, if_false, if_true]
      rw [frame_complete_capture_comparisons]
      simp only [if_true]
      split_ifs <;> simp [comparisons, List.filterMap_append, Event.comparedCall]

theorem frame_complete_load_failure (env : Env) (cfg : Config) (s : State) (n : Nat) (cp : Str)
    (hcp : Config.compare_prefix cfg = some cp)
    (hload : env.readPNG s.log (snprintf_png env.PATH_MAX cp n) = false) :
    frame_complete env cfg s n =
      { frame := (s.frame + 1) % 2 ^ 32
        insideGlBeginEnd := s.insideGlBeginEnd
        log := s.log ++ [.readPNG (snprintf_png env.PATH_MAX cp n) false] } := by
  unfold frame_complete
  simp [hcp, hload, State.emit]

theorem snapshot_referenceFiles (env : Env) (cfg : Config) (s : State) :
    List.filterMap Event.referenceFile (snapshot env cfg s).log =
      List.filterMap Event.referenceFile s.log :=
  snapshot_filterMap _
    (by intro e he; cases e <;> simp_all [Event.ofSnapshot, Event.referenceFile]) env cfg s

theorem snapshot_snapshotFiles (env : Env) (cfg : Config) (s : State) :
    List.filterMap Event.snapshotFile (snapshot env cfg s).log =
      List.filterMap Event.snapshotFile s.log :=
  snapshot_filterMap _
    (by intro e he; cases e <;> simp_all [Event.ofSnapshot, Event.snapshotFile]) env cfg s

theorem frame_complete_capture_referenceFiles (env : Env) (cfg : Config) (s : State) (n : Nat)
    (ref : Bool) :
    referenceFiles (frame_complete_capture env cfg s n ref).log = referenceFiles s.log := by
  unfold frame_complete_capture
  dsimp only
  cases Config.snapshot_prefix cfg with
  | none =>
    dsimp only
    cases ref <;>
      simp [referenceFiles, List.filterMap_append, snapshot_referenceFiles, Event.referenceFile]
  | some sp =>
    dsimp only
    cases ref <;> simp only [Bool.false_eq_true, if_false, if_true] <;> split_ifs <;>
      simp [referenceFiles, List.filterMap_append, snapshot_referenceFiles, Event.referenceFile]

theorem frame_complete_capture_snapshotFiles (env : Env) (cfg : Config) (s : State) (n : Nat)
    (ref : Bool) :
    snapshotFiles (frame_complete_capture env cfg s n ref).log =
      snapshotFiles s.log ++
        match Config.snapshot_prefix cfg with
        | some sp => [snprintf_png env.PATH_MAX sp n]
        | none => [] := by
  unfold frame_complete_capture
  dsimp only
  cases Config.snapshot_prefix cfg with
  | none =>
    dsimp only
    cases ref <;>
      simp [snapshotFiles, List.filterMap_append, snapshot_snapshotFiles, Event.snapshotFile]
  | some sp =>
    dsimp only
    cases ref <;> simp only [Bool.false_eq_true, if_false, if_true] <;> split_ifs <;>
      simp [snapshotFiles, List.filterMap_append, snapshot_snapshotFiles, Event.snapshotFile]

theorem frame_complete_referenceFiles (env : Env) (cfg : Config) (s : State) (n : Nat) :
    referenceFiles (frame_complete env cfg s n).log =
      referenceFiles s.log ++
        match Config.compare_prefix cfg with
        | some cp => [snprintf_png env.PATH_MAX cp n]
        | none => [] := by
  unfold frame_complete
  dsimp only
  cases hcp : Config.compare_prefix cfg with
  | none =>
    dsimp only
    split_ifs <;> simp [frame_complete_capture_referenceFiles]
  | some cp =>
    dsimp only
    rw [if_pos (by simp)]
    cases hload : env.readPNG s.log (snprintf_png env.PATH_MAX cp n)
    · simp [referenceFiles, List.filterMap_append, Event.referenceFile]
    · simp only [Bool.not_true, Bool.false_eq_true, if_false, if_true]
      rw [frame_complete_capture_referenceFiles]
      split_ifs <;> simp [referenceFiles, List.filterMap_append, Event.referenceFile]

theorem frame_complete_snapshotFiles (env : Env) (cfg : Config) (s : State) (n : Nat) :
    snapshotFiles (frame_complete env cfg s n).log =
      snapshotFiles s.log ++
        match Config.snapshot_prefix cfg, Config.compare_prefix cfg with
        | some sp, some cp =>
          if env.readPNG s.log (snprintf_png env.PATH_MAX cp n) then
            [snprintf_png env.PATH_MAX sp n]
          else []
        | some sp, none => [snprintf_png env.PATH_MAX sp n]
        | none, _ => [] := by
  unfold frame_complete
  dsimp only
  cases hcp : Config.compare_prefix cfg with
  | none =>
    dsimp only
    cases hsp : Config.snapshot_prefix cfg <;>
      simp [frame_complete_capture_snapshotFiles, hsp]
  | some cp =>
    dsimp only
    rw [if_pos (by simp)]
    cases hload : env.readPNG s.log (snprintf_png env.PATH_MAX cp n)
    · cases hsp : Config.snapshot_prefix cfg <;>
        simp [snapshotFiles, List.filterMap_append, Event.snapshotFile, hload]
    · simp only [Bool.not_true, Bool.false_eq_true, if_false, if_true]
      rw [frame_complete_capture_snapshotFiles]
      cases hsp : Config.snapshot_prefix cfg <;> split_ifs <;>
        simp [snapshotFiles, List.filterMap_append, Event.snapshotFile, hload]

/-! ## The option loop -/

theorem optionLoop_tokens (atoi : Str → Int) (cfg : Config) (flag : Flag) (rest : List Str) :
    optionLoop atoi cfg (flag.tokens ++ rest) = optionLoop atoi (flag.apply atoi cfg) rest := by
  cases flag <;> cases rest <;> simp [optionLoop, Flag.tokens, Flag.apply, charAt]

theorem optionLoop_flagArgs (atoi : Str → Int) (flags : List Flag) (rest : List Str) :
    ∀ cfg : Config, optionLoop atoi cfg (flagArgs flags ++ rest) =
      optionLoop atoi (flags.foldl (Flag.apply atoi) cfg) rest := by
  induction flags with
  | nil => intro cfg; rfl
  | cons flag flags ih =>
    intro cfg
    have h : flagArgs (flag :: flags) ++ rest = flag.tokens ++ (flagArgs flags ++ rest) := by
      simp [flagArgs]
    rw [h, optionLoop_tokens, ih]
    rfl

theorem optionLoop_stop (atoi : Str → Int) (cfg : Config) (rest : List Str)
    (hrest : ∀ tok ∈ rest.head?, charAt tok 0 ≠ '-') :
    optionLoop atoi cfg rest = .run cfg rest := by
  cases rest with
  | nil => rfl
  | cons tok rest =>
    have h := hrest tok (by simp)
    cases rest <;> simp [optionLoop, h]

theorem optionLoop_unknown (atoi : Str → Int) (cfg : Config) (arg : Str) (rest : List Str)
    (hdash : charAt arg 0 = '-') (hnew : arg ∉ recognisedOptions) :
    optionLoop atoi cfg (arg :: rest) = .unknown arg := by
  simp only [recognisedOptions, List.mem_cons, List.mem_singleton, not_or, List.not_mem_nil,
    not_false_eq_true, and_true] at hnew
  obtain ⟨h1, h2, h3, h4, h5, h6, h7, h8, h9⟩ := hnew
  cases rest <;> unfold optionLoop <;>
    simp only [hdash, ne_eq, not_true_eq_false, if_false, h1, h2, h3, h4, h5, h6, h7, h8, h9]

theorem optionLoop_help (atoi : Str → Int) (cfg : Config) (rest : List Str) :
    optionLoop atoi cfg ("--help".toList :: rest) = .help := by
  cases rest <;> simp [optionLoop, charAt]

/-! ## The configuration a list of flags leaves -/

theorem foldl_apply_benchmark (atoi : Str → Int) (flags : List Flag) :
    ∀ cfg : Config, (flags.foldl (Flag.apply atoi) cfg).benchmark =
      (cfg.benchmark || decide (Flag.b ∈ flags)) := by
  induction flags with
  | nil => intro cfg; simp
  | cons flag flags ih =>
    intro cfg
    rw [List.foldl_cons, ih]
    cases flag <;> cases h : cfg.benchmark <;> simp [Flag.apply, h]

theorem foldl_apply_double_buffer (atoi : Str → Int) (flags : List Flag) :
    ∀ cfg : Config, (flags.foldl (Flag.apply atoi) cfg).double_buffer =
      (cfg.double_buffer || decide (Flag.db ∈ flags)) := by
  induction flags with
  | nil => intro cfg; simp
  | cons flag flags ih =>
    intro cfg
    rw [List.foldl_cons, ih]
    cases flag <;> cases h : cfg.double_buffer <;> simp [Flag.apply, h]

theorem foldl_apply_wait (atoi : Str → Int) (flags : List Flag) :
    ∀ cfg : Config, (flags.foldl (Flag.apply atoi) cfg).wait =
      (cfg.wait || decide (Flag.w ∈ flags)) := by
  induction flags with
  | nil => intro cfg; simp
  | cons flag flags ih =>
    intro cfg
    rw [List.foldl_cons, ih]
    cases flag <;> cases h : cfg.wait <;> simp [Flag.apply, h]

theorem foldl_apply_verbosity (atoi : Str → Int) (flags : List Flag) :
    ∀ cfg : Config, Flag.b ∉ flags → (∀ n, Flag.D n ∉ flags) →
      (flags.foldl (Flag.apply atoi) cfg).verbosity = cfg.verbosity + flags.count Flag.v := by
  induction flags with
  | nil => intro cfg _ _; simp
  | cons flag flags ih =>
    intro cfg hb hD
    have hb2 : Flag.b ∉ flags := fun h => hb (List.mem_cons_of_mem _ h)
    have hD2 : ∀ n, Flag.D n ∉ flags := fun n h => hD n (List.mem_cons_of_mem _ h)
    rw [List.foldl_cons, ih _ hb2 hD2]
    cases flag with
    | b => exact absurd (List.mem_cons_self _ _) hb
    | D n => exact absurd (List.mem_cons_self _ _) (hD n)
    | v => simp [Flag.apply]; omega
    | c p => simp [Flag.apply]
    | db => simp [Flag.apply]
    | s p => simp [Flag.apply]
    | w => simp [Flag.apply]

theorem foldl_apply_compare (atoi : Str → Int) (p : Str) (flags : List Flag) :
    ∀ cfg : Config, (∀ q, Flag.c q ∈ flags → q = p) →
      Config.compare_prefix (flags.foldl (Flag.apply atoi) cfg) =
        if Flag.c p ∈ flags then some p else Config.compare_prefix cfg := by
  induction flags with
  | nil => intro cfg _; simp
  | cons flag flags ih =>
    intro cfg h
    have h2 : ∀ q, Flag.c q ∈ flags → q = p := fun q hq => h q (List.mem_cons_of_mem _ hq)
    rw [List.foldl_cons, ih _ h2]
    cases flag with
    | c q =>
      have hq : q = p := h q (List.mem_cons_self _ _)
      subst hq
      simp [Flag.apply]
    | b => simp [Flag.apply]
    | D n => simp [Flag.apply]
    | v => simp [Flag.apply]
    | db => simp [Flag.apply]
    | s p => simp [Flag.apply]
    | w => simp [Flag.apply]

theorem foldl_apply_snapshot (atoi : Str → Int) (p : Str) (flags : List Flag) :
    ∀ cfg : Config, (∀ q, Flag.s q ∈ flags → q = p) →
      Config.snapshot_prefix (flags.foldl (Flag.apply atoi) cfg) =
        if Flag.s p ∈ flags then some p else Config.snapshot_prefix cfg := by
  induction flags with
  | nil => intro cfg _; simp
  | cons flag flags ih =>
    intro cfg h
    have h2 : ∀ q, Flag.s q ∈ flags → q = p := fun q hq => h q (List.mem_cons_of_mem _ hq)
    rw [List.foldl_cons, ih _ h2]
    cases flag with
    | s q =>
      have hq : q = p := h q (List.mem_cons_self _ _)
      subst hq
      simp [Flag.apply]
    | b => simp [Flag.apply]
    | D n => simp [Flag.apply]
    | v => simp [Flag.apply]
    | db => simp [Flag.apply]
    | c p => simp [Flag.apply]
    | w => simp [Flag.apply]

theorem foldl_apply_dump_state (atoi : Str → Int) (p : Str) (flags : List Flag) :
    ∀ cfg : Config, (∀ q, Flag.D q ∈ flags → q = p) →
      (flags.foldl (Flag.apply atoi) cfg).dump_state =
        if Flag.D p ∈ flags then (atoi p % 2 ^ 32).toNat else cfg.dump_state := by
  induction flags with
  | nil => intro cfg _; simp
  | cons flag flags ih =>
    intro cfg h
    have h2 : ∀ q, Flag.D q ∈ flags → q = p := fun q hq => h q (List.mem_cons_of_mem _ hq)
    rw [List.foldl_cons, ih _ h2]
    cases flag with
    | D q =>
      have hq : q = p := h q (List.mem_cons_self _ _)
      subst hq
      simp [Flag.apply]
    | b => simp [Flag.apply]
    | s q => simp [Flag.apply]
    | v => simp [Flag.apply]
    | db => simp [Flag.apply]
    | c p => simp [Flag.apply]
    | w => simp [Flag.apply]

/-! ## The claims about `display` -/

/-- C10: the name test of `display` reads no position past the length of the
name (position `name.length` holds the terminator), for every name, the empty
one and those of one or two characters included, and it succeeds exactly when
the name starts with "wgl" or with "glX". -/
theorem osSpecificTest_in_bounds_and_correct (name : Str) :
    (∀ i ∈ (osSpecificTest name).reads, i ≤ name.length) ∧
    ((osSpecificTest name).result = true ↔
      ("wgl".toList <+: name ∨ "glX".toList <+: name)) :=
  osSpecificTest_spec name

/-- C1: when `display` replays a call stream to its end, the frame counter (an
`unsigned`) has grown by the number of calls named `glXSwapBuffers` or
`wglSwapBuffers`, plus, when `double_buffer` is false, the number of calls
named `glXMakeCurrent` or `wglMakeCurrent`: modulo `2 ^ 32` in general, and
exactly when the sum fits; a call that is not such a frame boundary leaves the
counter unchanged. -/
theorem display_frame_count (env : Env) (cfg : Config) (s : State) (calls : List Call)
    (hframe : s.frame < 2 ^ 32)
    (hend : (display env cfg s calls).reachedEnd = true) :
    (display env cfg s calls).state.frame =
        (s.frame + calls.countP (fun c => isFrameBoundary cfg.double_buffer c.name)) % 2 ^ 32 ∧
    (s.frame + calls.countP (fun c => isFrameBoundary cfg.double_buffer c.name) < 2 ^ 32 →
      (display env cfg s calls).state.frame =
        s.frame + calls.countP (fun c => isFrameBoundary cfg.double_buffer c.name)) ∧
    (∀ (s0 : State) (call : Call), isFrameBoundary cfg.double_buffer call.name = false →
      (display_call env cfg s0 call).frame = s0.frame) := by
  have h1 : (display env cfg s calls).state.frame =
      (s.frame + calls.countP (fun c => isFrameBoundary cfg.double_buffer c.name)) % 2 ^ 32 := by
    rw [display_of_reachedEnd env cfg s calls hend, display_end_frame,
      replay_frame env cfg calls s hframe]
  refine ⟨h1, ?_, ?_⟩
  · intro hfit
    rw [h1, Nat.mod_eq_of_lt hfit]
  · intro s0 call hb
    rw [display_call_frame, hb]
    simp

/-- Witness of C1: the sample trace, single-buffered, has four frame boundaries. -/
theorem display_frame_count_witness :
    (display sampleEnv Config.initial State.initial sampleTrace).state.frame = 4 := by
  have h := (display_frame_count sampleEnv Config.initial State.initial sampleTrace
    (by decide) (by decide)).1
  rw [h]
  decide

/-- C2: when `display` replays a call stream to its end, the calls handed to
the dispatcher are, in stream order and each once, the calls of the stream
whose name does not begin with "wgl" or "glX"; no call with such a name is
handed to the dispatcher. -/
theorem display_dispatches_generic_calls (env : Env) (cfg : Config) (s : State)
    (calls : List Call) (hend : (display env cfg s calls).reachedEnd = true) :
    dispatched (display env cfg s calls).state.log =
      dispatched s.log ++ calls.filter (fun c => !hasOsPrefix c.name) := by
  rw [display_of_reachedEnd env cfg s calls hend, display_end_dispatched, replay_dispatched]

/-- Witness of C2: the calls of the sample trace that reach the dispatcher. -/
theorem display_dispatches_generic_calls_witness :
    dispatched (display sampleEnv Config.initial State.initial sampleTrace).state.log =
      dispatched State.initial.log ++ sampleTrace.filter (fun c => !hasOsPrefix c.name) :=
  display_dispatches_generic_calls sampleEnv Config.initial State.initial sampleTrace
    (by decide)

/-- Counterexample to C5: with threshold 10, a stream that starts with the
OS-specific call `glXSwapBuffers` of sequence number 10 is dumped at that call;
the generic call that follows is never pulled. -/
theorem state_dump_after_os_specific_call :
    isOsSpecific "glXSwapBuffers".toList = true ∧
    display sampleEnv { Config.initial with dump_state := 10, verbosity := -2 } State.initial
        [{ no := 10, name := "glXSwapBuffers".toList }, { no := 11, name := "glClear".toList }] =
      .dumped { frame := 1, insideGlBeginEnd := false, log := [.glFlush, .state_dump] }
        [{ no := 11, name := "glClear".toList }] := by
  decide

/-- C5, amended: the state-dump check is made after every call, generic or
OS-specific.  If for no call of `pre` the check succeeds (the guard is set
after the call, or its sequence number is below the threshold), `display`
replays `pre` to the end of the trace; and if the check succeeds for the call
that follows `pre`, `display` dumps the state and exits there: the calls after
it are left unread, the dispatcher has received the generic calls up to it
only, and no summary line has been printed. -/
theorem display_state_dump (env : Env) (cfg : Config) (s : State) (pre : List Call)
    (hpre : ∀ k (hk : k < pre.length),
      stateDumpDue cfg (replay env cfg s (pre.take (k + 1))) pre[k] = false) :
    display env cfg s pre = display_end env cfg (replay env cfg s pre) ∧
    ∀ (call : Call) (post : List Call),
      stateDumpDue cfg (replay env cfg s (pre ++ [call])) call = true →
      display env cfg s (pre ++ call :: post) =
          .dumped ((replay env cfg s (pre ++ [call])).emit .state_dump) post ∧
      dispatched ((replay env cfg s (pre ++ [call])).emit .state_dump).log =
          dispatched s.log ++ (pre ++ [call]).filter (fun c => !hasOsPrefix c.name) ∧
      summaries ((replay env cfg s (pre ++ [call])).emit .state_dump).log = summaries s.log := by
  have hend := reachedEnd_of_not_due env cfg pre s hpre
  refine ⟨display_of_reachedEnd env cfg s pre hend, ?_⟩
  intro call post hdue
  refine ⟨?_, ?_, ?_⟩
  · rw [display_append_of_reachedEnd env cfg pre (call :: post) s hend, display_cons]
    rw [replay_append, replay_cons, replay_nil] at hdue ⊢
    rw [if_pos hdue]
  · rw [State.emit_log, dispatched_append, replay_dispatched]
    simp [dispatched, Event.dispatchedCall]
  · rw [State.emit_log, summaries_append, replay_summaries]
    simp [summaries, Event.summaryFrame]

/-- Witness of C5: with threshold 4, `glBegin` (number 3) is below the
threshold, `glVertex3f` (number 4) leaves the guard set, and the dump happens
at `glEnd` (number 5). -/
theorem display_state_dump_witness :
    display sampleEnv sampleDumpConfig State.initial
        ([{ no := 3, name := "glBegin".toList }, { no := 4, name := "glVertex3f".toList }] ++
          { no := 5, name := "glEnd".toList } :: [{ no := 6, name := "glClear".toList }]) =
      .dumped ((replay sampleEnv sampleDumpConfig State.initial
        ([{ no := 3, name := "glBegin".toList }, { no := 4, name := "glVertex3f".toList }] ++
          [{ no := 5, name := "glEnd".toList }])).emit .state_dump)
        [{ no := 6, name := "glClear".toList }] :=
  ((display_state_dump sampleEnv sampleDumpConfig State.initial
    [{ no := 3, name := "glBegin".toList }, { no := 4, name := "glVertex3f".toList }]
    (by decide)).2 { no := 5, name := "glEnd".toList } [{ no := 6, name := "glClear".toList }]
    (by decide)).1

/-! ## The claims about `frame_complete` and `checkGlError` -/

theorem errorText_eq_errorName (error : Nat) : errorText error = errorName error := by
  unfold errorText errorName errorNames
  split_ifs with h1 h2 h3 h4 h5 h6 h7 h8
  · subst h1; rfl
  · subst h2; rfl
  · subst h3; rfl
  · subst h4; rfl
  · subst h5; rfl
  · subst h6; rfl
  · subst h7; rfl
  · subst h8; rfl
  · have b1 : (error == GL_INVALID_ENUM) = false := by simp [h1]
    have b2 : (error == GL_INVALID_VALUE) = false := by simp [h2]
    have b3 : (error == GL_INVALID_OPERATION) = false := by simp [h3]
    have b4 : (error == GL_STACK_OVERFLOW) = false := by simp [h4]
    have b5 : (error == GL_STACK_UNDERFLOW) = false := by simp [h5]
    have b6 : (error == GL_OUT_OF_MEMORY) = false := by simp [h6]
    have b7 : (error == GL_INVALID_FRAMEBUFFER_OPERATION) = false := by simp [h7]
    have b8 : (error == GL_TABLE_TOO_LARGE) = false := by simp [h8]
    simp only [List.lookup, b1, b2, b3, b4, b5, b6, b7, b8]

/-- C3: `frame_complete` makes a comparison exactly when `compare_prefix` is
set and the reference file is loaded; when `compare_prefix` is set and the
load fails, the invocation increments the frame counter, leaves the attempt to
load as its only trace (no pixel is read, no snapshot written, no comparison
made), and returns. -/
theorem frame_complete_compares_iff_loaded (env : Env) (cfg : Config) (s : State)
    (call_no : Nat) :
    comparisons (frame_complete env cfg s call_no).log =
      comparisons s.log ++
        (match Config.compare_prefix cfg with
        | some cp =>
          if env.readPNG s.log (snprintf_png env.PATH_MAX cp call_no) then [call_no] else []
        | none => []) ∧
    ∀ cp : Str, Config.compare_prefix cfg = some cp →
      env.readPNG s.log (snprintf_png env.PATH_MAX cp call_no) = false →
      frame_complete env cfg s call_no =
        { frame := (s.frame + 1) % 2 ^ 32
          insideGlBeginEnd := s.insideGlBeginEnd
          log := s.log ++ [.readPNG (snprintf_png env.PATH_MAX cp call_no) false] } :=
  ⟨frame_complete_comparisons env cfg s call_no,
    fun cp hcp hload => frame_complete_load_failure env cfg s call_no cp hcp hload⟩

/-- Witness of C3: with `-c /tmp/ref -s /tmp/out` and no reference image on
disk, the frame at call 42 is counted and nothing else is done. -/
theorem frame_complete_compares_iff_loaded_witness :
    frame_complete sampleEnv sampleCompareConfig State.initial 42 =
      { frame := (State.initial.frame + 1) % 2 ^ 32
        insideGlBeginEnd := State.initial.insideGlBeginEnd
        log := State.initial.log ++
          [.readPNG (snprintf_png sampleEnv.PATH_MAX "/tmp/ref".toList 42) false] } :=
  (frame_complete_compares_iff_loaded sampleEnv sampleCompareConfig State.initial 42).2
    "/tmp/ref".toList rfl rfl

/-- Counterexample to C4: with `PATH_MAX = 4096` and a prefix of 4090
characters the reference file name is cut; it is not the prefix followed by
the ten digits and ".png". -/
theorem long_prefix_filename_cut :
    referenceFiles (frame_complete sampleEnv longPrefixConfig State.initial 42).log ≠
      [longPrefix ++ "0000000042".toList ++ ".png".toList] := by
  rw [frame_complete_referenceFiles]
  intro h
  have hc : Config.compare_prefix longPrefixConfig = some longPrefix := rfl
  have hp : sampleEnv.PATH_MAX = 4096 := rfl
  have hr : referenceFiles State.initial.log = [] := rfl
  rw [hc, hp, hr] at h
  have h1 := List.head_eq_of_cons_eq h
  have h2 := congrArg List.length h1
  have h3 := snprintf_png_length_le 4096 longPrefix 42
  have hl : longPrefix.length = 4090 := List.length_replicate 4090 '/'
  rw [h2] at h3
  simp only [List.length_append, hl] at h3
  exact absurd h3 (by decide)

/-- C4, amended: for a sequence number `call_no` (an `unsigned`), the file name
`snprintf` builds from a prefix is the text made of the prefix, the ten
zero-padded decimal digits of `call_no` and ".png", cut to its first
`size - 1` characters; it is that whole text when the prefix has fewer than
`size - 14` characters.  `frame_complete` builds the name of the reference
file from `compare_prefix` and the name of the snapshot file from
`snapshot_prefix` in this way, with `size = PATH_MAX`. -/
theorem frame_complete_filenames (env : Env) (cfg : Config) (s : State) (call_no : Nat)
    (hno : call_no < 2 ^ 32) :
    (∀ (size : Nat) (pfx : Str), snprintf_png size pfx call_no =
      (pfx ++ tenDigits call_no ++ ".png".toList).take (size - 1)) ∧
    (∀ (size : Nat) (pfx : Str), pfx.length + 14 < size →
      snprintf_png size pfx call_no = pfx ++ tenDigits call_no ++ ".png".toList) ∧
    referenceFiles (frame_complete env cfg s call_no).log =
      referenceFiles s.log ++
        (match Config.compare_prefix cfg with
        | some cp => [snprintf_png env.PATH_MAX cp call_no]
        | none => []) ∧
    snapshotFiles (frame_complete env cfg s call_no).log =
      snapshotFiles s.log ++
        (match Config.snapshot_prefix cfg, Config.compare_prefix cfg with
        | some sp, some cp =>
          if env.readPNG s.log (snprintf_png env.PATH_MAX cp call_no) then
            [snprintf_png env.PATH_MAX sp call_no]
          else []
        | some sp, none => [snprintf_png env.PATH_MAX sp call_no]
        | none, _ => []) :=
  ⟨fun size pfx => snprintf_png_eq size pfx call_no hno,
    fun size pfx hfit => snprintf_png_fits size pfx call_no hno hfit,
    frame_complete_referenceFiles env cfg s call_no,
    frame_complete_snapshotFiles env cfg s call_no⟩

/-- Witness of C4: prefix "/tmp/out" and sequence number 42 give
"/tmp/out0000000042.png". -/
theorem frame_complete_filenames_witness :
    snprintf_png 4096 "/tmp/out".toList 42 = "/tmp/out0000000042.png".toList :=
  ((frame_complete_filenames sampleEnv sampleCompareConfig State.initial 42
    (by decide)).2.1 4096 "/tmp/out".toList (by decide)).trans (by decide)

/-- C9: `checkGlError` does nothing, not even query the error state, when
benchmark mode is active or the guard `insideGlBeginEnd` is set.  Otherwise it
queries the error state once; it writes nothing when the state is
`GL_NO_ERROR`, and otherwise writes one warning line to the standard error
stream: the call index and ": " when the index is not negative, then
"warning: glGetError() = ", then the symbolic name of the error for the eight
codes of the table and the decimal code for any other value. -/
theorem checkGlError_spec (env : Env) (cfg : Config) (s : State) (callIdx : Int) :
    ((cfg.benchmark = true ∨ s.insideGlBeginEnd = true) →
      checkGlError env cfg s callIdx = s) ∧
    (cfg.benchmark = false → s.insideGlBeginEnd = false →
      (env.glGetError s.log = GL_NO_ERROR →
        checkGlError env cfg s callIdx = s.emit (.glGetError GL_NO_ERROR)) ∧
      (env.glGetError s.log ≠ GL_NO_ERROR →
        (checkGlError env cfg s callIdx).frame = s.frame ∧
        (checkGlError env cfg s callIdx).insideGlBeginEnd = s.insideGlBeginEnd ∧
        stderrText (checkGlError env cfg s callIdx).log =
          stderrText s.log ++
            ((if callIdx ≥ 0 then itoa callIdx ++ ": ".toList else []) ++
              "warning: glGetError() = ".toList ++ errorName (env.glGetError s.log) ++
              "\n".toList))) := by
  refine ⟨?_, ?_⟩
  · intro h
    unfold checkGlError
    rw [if_pos (by rcases h with h | h <;> simp [h])]
  · intro hb hg
    refine ⟨?_, ?_⟩
    · intro he
      unfold checkGlError
      simp [hb, hg, he]
    · intro he
      refine ⟨checkGlError_frame env cfg s callIdx,
        checkGlError_insideGlBeginEnd env cfg s callIdx, ?_⟩
      unfold checkGlError
      rw [if_neg (by simp [hb, hg])]
      dsimp only
      rw [if_neg he, ← errorText_eq_errorName]
      split_ifs <;>
        simp [stderrText, List.filterMap_append, Event.stderrOutput]

/-- Witness of C9: outside benchmark mode and outside `glBegin`/`glEnd`, the
error `GL_INVALID_ENUM` after call 7 is reported with the index and the name. -/
theorem checkGlError_spec_witness :
    stderrText (checkGlError sampleEnvWithError Config.initial State.initial 7).log =
      "7: warning: glGetError() = GL_INVALID_ENUM\n".toList :=
  ((((checkGlError_spec sampleEnvWithError Config.initial State.initial 7).2 rfl rfl).2
    (by decide)).2.2).trans (by decide)

theorem perm_compare (atoi : Str → Int) (cfg : Config) (fs1 fs2 : List Flag)
    (hperm : fs1.Perm fs2) (hc : ∀ p q, Flag.c p ∈ fs1 → Flag.c q ∈ fs1 → p = q) :
    Config.compare_prefix (fs1.foldl (Flag.apply atoi) cfg) =
      Config.compare_prefix (fs2.foldl (Flag.apply atoi) cfg) := by
  obtain ⟨p, hp⟩ : ∃ p, ∀ q, Flag.c q ∈ fs1 → q = p := by
    by_cases hex : ∃ p, Flag.c p ∈ fs1
    · obtain ⟨p, hmem⟩ := hex
      exact ⟨p, fun q hq => hc q p hq hmem⟩
    · exact ⟨[], fun q hq => absurd ⟨q, hq⟩ hex⟩
  rw [foldl_apply_compare atoi p fs1 cfg hp,
    foldl_apply_compare atoi p fs2 cfg (fun q hq => hp q (hperm.mem_iff.mpr hq))]
  simp only [hperm.mem_iff]

theorem perm_snapshot (atoi : Str → Int) (cfg : Config) (fs1 fs2 : List Flag)
    (hperm : fs1.Perm fs2) (hc : ∀ p q, Flag.s p ∈ fs1 → Flag.s q ∈ fs1 → p = q) :
    Config.snapshot_prefix (fs1.foldl (Flag.apply atoi) cfg) =
      Config.snapshot_prefix (fs2.foldl (Flag.apply atoi) cfg) := by
  obtain ⟨p, hp⟩ : ∃ p, ∀ q, Flag.s q ∈ fs1 → q = p := by
    by_cases hex : ∃ p, Flag.s p ∈ fs1
    · obtain ⟨p, hmem⟩ := hex
      exact ⟨p, fun q hq => hc q p hq hmem⟩
    · exact ⟨[], fun q hq => absurd ⟨q, hq⟩ hex⟩
  rw [foldl_apply_snapshot atoi p fs1 cfg hp,
    foldl_apply_snapshot atoi p fs2 cfg (fun q hq => hp q (hperm.mem_iff.mpr hq))]
  simp only [hperm.mem_iff]

theorem perm_dump_state (atoi : Str → Int) (cfg : Config) (fs1 fs2 : List Flag)
    (hperm : fs1.Perm fs2) (hc : ∀ p q, Flag.D p ∈ fs1 → Flag.D q ∈ fs1 → p = q) :
    (fs1.foldl (Flag.apply atoi) cfg).dump_state =
      (fs2.foldl (Flag.apply atoi) cfg).dump_state := by
  obtain ⟨p, hp⟩ : ∃ p, ∀ q, Flag.D q ∈ fs1 → q = p := by
    by_cases hex : ∃ p, Flag.D p ∈ fs1
    · obtain ⟨p, hmem⟩ := hex
      exact ⟨p, fun q hq => hc q p hq hmem⟩
    · exact ⟨[], fun q hq => absurd ⟨q, hq⟩ hex⟩
  rw [foldl_apply_dump_state atoi p fs1 cfg hp,
    foldl_apply_dump_state atoi p fs2 cfg (fun q hq => hp q (hperm.mem_iff.mpr hq))]
  simp only [hperm.mem_iff]

/-! ## The claims about `main` -/

/-- Counterexample to C6: `-b -v` and `-v -b` are permutations of each other
and leave different verbosities, 0 and -1. -/
theorem verbosity_depends_on_flag_order :
    [Flag.b, Flag.v].Perm [Flag.v, Flag.b] ∧
    optionLoop sampleEnv.atoi Config.initial (flagArgs [Flag.b, Flag.v]) =
      .run { Config.initial with benchmark := true, verbosity := 0 } [] ∧
    optionLoop sampleEnv.atoi Config.initial (flagArgs [Flag.v, Flag.b]) =
      .run { Config.initial with benchmark := true, verbosity := -1 } [] :=
  ⟨List.Perm.swap _ _ _, by decide, by decide⟩

/-- C6, amended: for a list of the flags `-b`, `-c P`, `-D N`, `-db`, `-s P`,
`-v`, `-w` followed by the trace files, and any permutation of the flags, the
option loop ends with the same `benchmark`, `double_buffer` and `wait`; with
the same `compare_prefix`, `snapshot_prefix`, `dump_state` when the list does
not give two different values to `-c`, to `-s`, to `-D`; and with the same
verbosity when the list holds neither `-b` nor `-D`. -/
theorem optionLoop_permutation (atoi : Str → Int) (fs1 fs2 : List Flag) (rest : List Str)
    (hperm : fs1.Perm fs2) (hrest : ∀ tok ∈ rest.head?, charAt tok 0 ≠ '-') :
    ∃ c1 c2 : Config,
      optionLoop atoi Config.initial (flagArgs fs1 ++ rest) = .run c1 rest ∧
      optionLoop atoi Config.initial (flagArgs fs2 ++ rest) = .run c2 rest ∧
      c1.benchmark = c2.benchmark ∧ c1.double_buffer = c2.double_buffer ∧ c1.wait = c2.wait ∧
      ((∀ p q, Flag.c p ∈ fs1 → Flag.c q ∈ fs1 → p = q) →
        Config.compare_prefix c1 = Config.compare_prefix c2) ∧
      ((∀ p q, Flag.s p ∈ fs1 → Flag.s q ∈ fs1 → p = q) →
        Config.snapshot_prefix c1 = Config.snapshot_prefix c2) ∧
      ((∀ p q, Flag.D p ∈ fs1 → Flag.D q ∈ fs1 → p = q) → c1.dump_state = c2.dump_state) ∧
      (Flag.b ∉ fs1 → (∀ n, Flag.D n ∉ fs1) → c1.verbosity = c2.verbosity) := by
  refine ⟨fs1.foldl (Flag.apply atoi) Config.initial, fs2.foldl (Flag.apply atoi) Config.initial,
    ?_, ?_, ?_, ?_, ?_, ?_, ?_, ?_, ?_⟩
  · rw [optionLoop_flagArgs, optionLoop_stop atoi _ rest hrest]
  · rw [optionLoop_flagArgs, optionLoop_stop atoi _ rest hrest]
  · rw [foldl_apply_benchmark, foldl_apply_benchmark]
    simp only [hperm.mem_iff]
  · rw [foldl_apply_double_buffer, foldl_apply_double_buffer]
    simp only [hperm.mem_iff]
  · rw [foldl_apply_wait, foldl_apply_wait]
    simp only [hperm.mem_iff]
  · exact perm_compare atoi _ fs1 fs2 hperm
  · exact perm_snapshot atoi _ fs1 fs2 hperm
  · exact perm_dump_state atoi _ fs1 fs2 hperm
  · intro hb hD
    rw [foldl_apply_verbosity atoi fs1 _ hb hD,
      foldl_apply_verbosity atoi fs2 _ (fun h => hb (hperm.mem_iff.mpr h))
        (fun n h => hD n (hperm.mem_iff.mpr h)),
      hperm.count_eq]

/-- Witness of C6: `-db -s /tmp/out -w` and `-w -db -s /tmp/out`, followed by a
trace file. -/
theorem optionLoop_permutation_witness :
    ∃ c1 c2 : Config,
      optionLoop sampleEnv.atoi Config.initial
        (flagArgs [Flag.db, Flag.s "/tmp/out".toList, Flag.w] ++ ["a.trace".toList]) =
          .run c1 ["a.trace".toList] ∧
      optionLoop sampleEnv.atoi Config.initial
        (flagArgs [Flag.w, Flag.db, Flag.s "/tmp/out".toList] ++ ["a.trace".toList]) =
          .run c2 ["a.trace".toList] ∧
      c1.benchmark = c2.benchmark ∧ c1.double_buffer = c2.double_buffer ∧ c1.wait = c2.wait := by
  obtain ⟨c1, c2, h1, h2, h3, h4, h5, _⟩ :=
    optionLoop_permutation sampleEnv.atoi [Flag.db, Flag.s "/tmp/out".toList, Flag.w]
      [Flag.w, Flag.db, Flag.s "/tmp/out".toList] ["a.trace".toList]
      (by decide) (by decide)
  exact ⟨c1, c2, h1, h2, h3, h4, h5⟩

/-- C7 fails on the code: the frame counter is not reset when `main` goes on to
the next trace file.  With `-w` and two trace files of one `glXSwapBuffers`
call each, the replay of the second file starts with the counter at 1 and its
summary reports 2 frames, while the same file replayed first reports 1. -/
theorem frame_counter_not_reset_between_traces :
    summaries (main sampleEnv ["-w".toList, "a.trace".toList, "b.trace".toList]).state.log =
      [1, 2] ∧
    summaries (main sampleEnv ["-w".toList, "b.trace".toList]).state.log = [1] := by
  decide

/-- C8: when the option loop, after any list of recognised flags, reaches an
argument that starts with '-' and is not a recognised option, `main` writes
the error and the usage text and returns 1; when it reaches `--help`, `main`
writes the usage text and returns 0.  Nothing else is done in either case: no
window system or context is created, no trace file is opened or replayed. -/
theorem main_unknown_option_or_help (env : Env) (flags : List Flag) (arg : Str)
    (rest : List Str) :
    (charAt arg 0 = '-' → arg ∉ recognisedOptions →
      main env (flagArgs flags ++ arg :: rest) =
        { status := .returned 1
          state :=
            { frame := 0
              insideGlBeginEnd := false
              log := [.stderr ("error: unknown option ".toList ++ arg ++ "\n".toList),
                      .stdout usageText] } }) ∧
    main env (flagArgs flags ++ "--help".toList :: rest) =
      { status := .returned 0
        state := { frame := 0, insideGlBeginEnd := false, log := [.stdout usageText] } } := by
  refine ⟨?_, ?_⟩
  · intro hdash hnew
    unfold main
    rw [optionLoop_flagArgs, optionLoop_unknown env.atoi _ arg rest hdash hnew]
    rfl
  · unfold main
    rw [optionLoop_flagArgs, optionLoop_help]
    rfl

/-- Witness of C8: `-v -z a.trace`. -/
theorem main_unknown_option_or_help_witness :
    main sampleEnv (flagArgs [Flag.v] ++ "-z".toList :: ["a.trace".toList]) =
      { status := .returned 1
        state :=
          { frame := 0
            insideGlBeginEnd := false
            log := [.stderr ("error: unknown option ".toList ++ "-z".toList ++ "\n".toList),
                    .stdout usageText] } } :=
  (main_unknown_option_or_help sampleEnv [Flag.v] "-z".toList ["a.trace".toList]).1
    (by decide) (by decide)

end glretrace
